import Mathlib

/-!
Verification of the Book Review System API
(`src/Book_Review_System_API/main.py`).

The FastAPI handlers are embedded as pure functions over an explicit
database state `DB`.  Mutating handlers return the possibly raised
`HTTPException` (as `Except`) together with the state after the request;
when an exception is raised before any write reaches the session, the
state is returned unchanged, matching the Python control flow where
`raise HTTPException` precedes every `db.add`/`db.commit`.
-/

namespace BookReview

/-- ORM model `Book` (main.py lines 67-72): integer autoincrement primary
key `id`, `title`, `author`, `publication_year`. -/
structure Book where
  id : Nat
  title : String
  author : String
  publication_year : Int
deriving DecidableEq, Repr

/-- ORM model `Review` (main.py lines 76-82): integer autoincrement primary
key `id`, nullable foreign key `book_id` referencing `books.id`, `text`,
`rating`.  The column is nullable (no `nullable=False` in the source), so
`book_id` is an `Option Nat`. -/
structure Review where
  id : Nat
  book_id : Option Nat
  text : String
  rating : Int
deriving DecidableEq, Repr

/-- The SQLite database state: the `books` and `reviews` tables in
insertion order, plus the autoincrement counters for the two primary
keys. -/
structure DB where
  books : List Book
  reviews : List Review
  nextBookId : Nat
  nextReviewId : Nat
deriving DecidableEq, Repr

/-- `fastapi.HTTPException` as raised by the handlers: a status code and a
detail string. -/
structure HTTPException where
  status_code : Nat
  detail : String
deriving DecidableEq, Repr

/-- Pydantic model `BookCreate` (main.py lines 91-94): fields
`title : str`, `author : str`, `publication_year : int`, declared with no
`Field` constraints and no validators. -/
structure BookCreate where
  title : String
  author : String
  publication_year : Int
deriving DecidableEq, Repr

/-- Pydantic model `ReviewCreate` (main.py lines 97-99): fields
`text : str`, `rating : int`, declared with no `Field` constraints and no
validators. -/
structure ReviewCreate where
  text : String
  rating : Int
deriving DecidableEq, Repr

/-- Validation performed by the `BookCreate` Pydantic model on typed
input: since the source declares only bare types (no constraints, no
validators), every `(str, str, int)` triple validates successfully. -/
def BookCreate.validate (title author : String) (publication_year : Int) :
    Except String BookCreate :=
  Except.ok ⟨title, author, publication_year⟩

/-- Validation performed by the `ReviewCreate` Pydantic model on typed
input: since the source declares only bare types (no constraints, no
validators), every `(str, int)` pair validates successfully. -/
def ReviewCreate.validate (text : String) (rating : Int) :
    Except String ReviewCreate :=
  Except.ok ⟨text, rating⟩

/-- Events emitted during `create_review`, in program order: the commit of
the review row, then the call to `background_tasks.add_task` scheduling
the notification. -/
inductive Event where
  | commitReview (r : Review)
  | scheduleNotification (reviewId : Nat)
deriving DecidableEq, Repr

/-- Mutate only the first element satisfying `p`, as SQLAlchemy's
`query.filter(...).first()` followed by `setattr` on the returned row
does. -/
def updateFirst (p : α → Bool) (f : α → α) : List α → List α
  | [] => []
  | x :: xs => if p x then f x :: xs else x :: updateFirst p f xs

/-- Remove only the first element satisfying `p`, as `session.delete` on
the row returned by `first()` does. -/
def deleteFirst (p : α → Bool) : List α → List α
  | [] => []
  | x :: xs => if p x then xs else x :: deleteFirst p xs

/-- Handler `create_book` (main.py lines 126-132): builds a `Book` from
the validated `BookCreate` payload, inserts it (SQLite assigns the next
autoincrement id) and returns the refreshed row. -/
def create_book (book : BookCreate) (db : DB) : Book × DB :=
  let db_book : Book :=
    ⟨db.nextBookId, book.title, book.author, book.publication_year⟩
  (db_book,
    { db with
        books := db.books ++ [db_book]
        nextBookId := db.nextBookId + 1 })

/-- Serialization of the `create_book` response through
`response_model=BookCreate` (main.py line 126): FastAPI projects the
returned ORM row onto the fields of `BookCreate`, which has no `id`
field. -/
def bookCreateResponse (b : Book) : BookCreate :=
  ⟨b.title, b.author, b.publication_year⟩

/-- The `POST /books/` endpoint as observed by a client: the handler
result serialized through `response_model=BookCreate`. -/
def create_book_endpoint (book : BookCreate) (db : DB) : BookCreate × DB :=
  let (b, db') := create_book book db
  (bookCreateResponse b, db')

/-- Handler `create_review` (main.py lines 135-147): looks the book up by
id; if absent raises 404 "Book not found" before any write; otherwise
inserts the review with the given `book_id`, commits, then schedules the
e-mail simulation via `background_tasks.add_task`.  The returned event
list records the commit and the scheduling in program order. -/
def create_review (book_id : Nat) (review : ReviewCreate) (db : DB) :
    Except HTTPException (Review × List Event) × DB :=
  match db.books.find? (fun b => b.id == book_id) with
  | none => (.error ⟨404, "Book not found"⟩, db)
  | some _ =>
    let db_review : Review :=
      ⟨db.nextReviewId, some book_id, review.text, review.rating⟩
    (.ok (db_review,
          [.commitReview db_review, .scheduleNotification db_review.id]),
      { db with
          reviews := db.reviews ++ [db_review]
          nextReviewId := db.nextReviewId + 1 })

/-- Serialization of the `create_review` response through
`response_model=ReviewCreate` (main.py line 135): the ORM row is projected
onto `text` and `rating`; neither `id` nor `book_id` is in the response. -/
def reviewCreateResponse (r : Review) : ReviewCreate :=
  ⟨r.text, r.rating⟩

/-- Handler `read_books` (main.py lines 151-158): starts from the whole
`books` table and narrows it with an equality filter for each query
parameter that is truthy in Python (`if author:` / `if publication_year:`),
so `None`, the empty string and the integer `0` all leave the query
unrestricted. -/
def read_books (author : Option String) (publication_year : Option Int)
    (db : DB) : List Book :=
  let q := db.books
  let q := match author with
    | none => q
    | some a => if a.isEmpty then q else q.filter (fun b => b.author == a)
  match publication_year with
  | none => q
  | some y => if y == 0 then q else q.filter (fun b => b.publication_year == y)

/-- Handler `read_reviews` (main.py lines 161-166): selects the reviews
with the given `book_id`; if the result set is empty — whether the book
exists or not — raises 404 "No reviews found for this book"; otherwise
returns the rows. -/
def read_reviews (book_id : Nat) (db : DB) :
    Except HTTPException (List Review) :=
  let reviews := db.reviews.filter (fun r => r.book_id == some book_id)
  if reviews.isEmpty then
    .error ⟨404, "No reviews found for this book"⟩
  else
    .ok reviews

/-- Handler `update_book` (main.py lines 170-179): looks the book up by
id; if absent raises 404 "Book not found"; otherwise overwrites exactly
the attributes in `book.dict()` — `title`, `author`,
`publication_year` — on the found row and returns it. -/
def update_book (book_id : Nat) (book : BookCreate) (db : DB) :
    Except HTTPException Book × DB :=
  match db.books.find? (fun b => b.id == book_id) with
  | none => (.error ⟨404, "Book not found"⟩, db)
  | some b0 =>
    let apply := fun (b : Book) =>
      { b with
          title := book.title
          author := book.author
          publication_year := book.publication_year }
    (.ok (apply b0),
      { db with
          books := updateFirst (fun b => b.id == book_id) apply db.books })

/-- Handler `update_review` (main.py lines 182-191): looks the review up
by id; if absent raises 404 "Review not found"; otherwise overwrites
exactly the attributes in `review.dict()` — `text` and `rating` — on the
found row and returns it; `id` and `book_id` are not among them. -/
def update_review (review_id : Nat) (review : ReviewCreate) (db : DB) :
    Except HTTPException Review × DB :=
  match db.reviews.find? (fun r => r.id == review_id) with
  | none => (.error ⟨404, "Review not found"⟩, db)
  | some r0 =>
    let apply := fun (r : Review) =>
      { r with text := review.text, rating := review.rating }
    (.ok (apply r0),
      { db with
          reviews := updateFirst (fun r => r.id == review_id) apply db.reviews })

/-- Handler `delete_book` (main.py lines 195-202): looks the book up by
id; if absent raises 404 "Book not found"; otherwise deletes the row and
commits.  The `Book.reviews` relationship (main.py lines 82-85) carries
SQLAlchemy's default cascade (`save-update, merge`), so on deleting the
parent the ORM de-associates the dependent reviews by setting their
nullable `book_id` column to NULL; the review rows themselves stay in the
table. -/
def delete_book (book_id : Nat) (db : DB) :
    Except HTTPException String × DB :=
  match db.books.find? (fun b => b.id == book_id) with
  | none => (.error ⟨404, "Book not found"⟩, db)
  | some _ =>
    (.ok "Book deleted successfully",
      { db with
          books := deleteFirst (fun b => b.id == book_id) db.books
          reviews := db.reviews.map (fun r =>
            if r.book_id == some book_id then { r with book_id := none }
            else r) })

/-- Handler `delete_review` (main.py lines 205-212): looks the review up
by id; if absent raises 404 "Review not found"; otherwise deletes the row
and commits. -/
def delete_review (review_id : Nat) (db : DB) :
    Except HTTPException String × DB :=
  match db.reviews.find? (fun r => r.id == review_id) with
  | none => (.error ⟨404, "Review not found"⟩, db)
  | some _ =>
    (.ok "Review deleted successfully",
      { db with
          reviews := deleteFirst (fun r => r.id == review_id) db.reviews })

/-- Background task `simulate_email_confirmation` (main.py lines
226-227): prints a line; it performs no database operation, so the store
is unchanged. -/
def simulate_email_confirmation (_r : Review) (db : DB) : DB := db

/-- A fresh, empty database. -/
def dbEmpty : DB := ⟨[], [], 1, 1⟩

/-- A database holding one book and no reviews. -/
def dbDune : DB := ⟨[⟨1, "Dune", "Herbert", 1965⟩], [], 2, 1⟩

/-- A database holding one book with one review. -/
def dbDuneReviewed : DB :=
  ⟨[⟨1, "Dune", "Herbert", 1965⟩], [⟨1, some 1, "Great", 5⟩], 2, 2⟩

/-- Mutating only the first element satisfying `p` preserves any
projection `g` that the mutation `f` leaves unchanged. -/
theorem updateFirst_map (p : α → Bool) (f : α → α) (g : α → β)
    (h : ∀ x, g (f x) = g x) (l : List α) :
    (updateFirst p f l).map g = l.map g := by
  induction l with
  | nil => rfl
  | cons x xs ih =>
    simp only [updateFirst]
    cases hp : p x with
    | true => simp [h]
    | false => simp [ih]

/-- Claim C1: `read_reviews` does not distinguish an existing book with
zero reviews from a missing book.  In the database `dbDune` the book with
id 1 exists and has zero reviews, yet the handler raises
404 "No reviews found for this book" instead of returning the valid empty
list. -/
theorem read_reviews_conflates_empty_with_missing :
    dbDune.books.find? (fun b => b.id == 1) =
      some ⟨1, "Dune", "Herbert", 1965⟩ ∧
    dbDune.reviews.filter (fun r => r.book_id == some 1) = [] ∧
    read_reviews 1 dbDune = .error ⟨404, "No reviews found for this book"⟩ :=
  ⟨rfl, rfl, rfl⟩

/-- Claim C2: `create_review` fails with 404 "Book not found" and leaves
the store untouched when the book id does not resolve, and otherwise
appends exactly the submitted review (bound to that book) to the store
and returns it. -/
theorem create_review_checks_book (book_id : Nat) (rc : ReviewCreate)
    (db : DB) :
    (db.books.find? (fun b => b.id == book_id) = none →
      create_review book_id rc db = (.error ⟨404, "Book not found"⟩, db)) ∧
    ((∃ b, db.books.find? (fun b => b.id == book_id) = some b) →
      ∃ r evs db_post,
        create_review book_id rc db = (.ok (r, evs), db_post) ∧
        db_post.reviews = db.reviews ++ [r] ∧
        db_post.books = db.books ∧
        r.book_id = some book_id ∧ r.text = rc.text ∧ r.rating = rc.rating) := by
  constructor
  · intro h
    simp [create_review, h]
  · rintro ⟨b, h⟩
    refine ⟨⟨db.nextReviewId, some book_id, rc.text, rc.rating⟩,
      [.commitReview ⟨db.nextReviewId, some book_id, rc.text, rc.rating⟩,
       .scheduleNotification db.nextReviewId],
      { db with
          reviews := db.reviews ++
            [⟨db.nextReviewId, some book_id, rc.text, rc.rating⟩]
          nextReviewId := db.nextReviewId + 1 },
      ?_, rfl, rfl, rfl, rfl, rfl⟩
    simp [create_review, h]

/-- Witness for claim C2: on the empty store, submitting a review for book
1 fails with 404 and leaves the store unchanged; on `dbDune`, where book 1
exists, the review is persisted and returned. -/
theorem create_review_checks_book_witness :
    create_review 1 ⟨"Great", 5⟩ dbEmpty =
      (.error ⟨404, "Book not found"⟩, dbEmpty) ∧
    ∃ r evs db_post,
      create_review 1 ⟨"Great", 5⟩ dbDune = (.ok (r, evs), db_post) ∧
      db_post.reviews = dbDune.reviews ++ [r] ∧
      db_post.books = dbDune.books ∧
      r.book_id = some 1 ∧ r.text = "Great" ∧ r.rating = 5 :=
  ⟨(create_review_checks_book 1 ⟨"Great", 5⟩ dbEmpty).1 rfl,
   (create_review_checks_book 1 ⟨"Great", 5⟩ dbDune).2
     ⟨⟨1, "Dune", "Herbert", 1965⟩, rfl⟩⟩

/-- Claim C3: ratings outside `[1,5]` are not rejected.  The `ReviewCreate`
model validates the out-of-range rating 6, `create_review` persists it,
and `update_review` likewise persists the out-of-range rating 0: no
`ValidationFailed` occurs and the store is mutated. -/
theorem out_of_range_rating_accepted :
    ReviewCreate.validate "Great" 6 = .ok ⟨"Great", 6⟩ ∧
    create_review 1 ⟨"Great", 6⟩ dbDune =
      (.ok (⟨1, some 1, "Great", 6⟩,
            [.commitReview ⟨1, some 1, "Great", 6⟩,
             .scheduleNotification 1]),
       { dbDune with reviews := [⟨1, some 1, "Great", 6⟩], nextReviewId := 2 }) ∧
    update_review 1 ⟨"Bad", 0⟩ dbDuneReviewed =
      (.ok ⟨1, some 1, "Bad", 0⟩,
       { dbDuneReviewed with reviews := [⟨1, some 1, "Bad", 0⟩] }) :=
  ⟨rfl, rfl, rfl⟩

/-- Claim C4: empty strings are not rejected.  `BookCreate` validates an
empty title and author and `create_book` persists them; `ReviewCreate`
validates empty review text and `create_review` persists it: no
`ValidationFailed` occurs and the writes reach the store. -/
theorem empty_strings_accepted :
    BookCreate.validate "" "" 2000 = .ok ⟨"", "", 2000⟩ ∧
    create_book ⟨"", "", 2000⟩ dbEmpty =
      (⟨1, "", "", 2000⟩, ⟨[⟨1, "", "", 2000⟩], [], 2, 1⟩) ∧
    ReviewCreate.validate "" 5 = .ok ⟨"", 5⟩ ∧
    create_review 1 ⟨"", 5⟩ dbDune =
      (.ok (⟨1, some 1, "", 5⟩,
            [.commitReview ⟨1, some 1, "", 5⟩, .scheduleNotification 1]),
       { dbDune with reviews := [⟨1, some 1, "", 5⟩], nextReviewId := 2 }) :=
  ⟨rfl, rfl, rfl, rfl⟩

/-- Counterexample to claim C5: providing the author filter `""` does not
return the equality-filtered subset.  In `dbDune` no book has author `""`,
so the equality subset is empty, yet `read_books` with `author=""` returns
the whole table. -/
theorem read_books_empty_filter_counterexample :
    read_books (some "") none dbDune = [⟨1, "Dune", "Herbert", 1965⟩] ∧
    dbDune.books.filter (fun b => b.author == "") = [] :=
  ⟨rfl, rfl⟩

/-- Claim C5 (amended): with no filters `read_books` returns every book in
insertion order, and whenever the provided author filter is a non-empty
string and the provided publication-year filter is non-zero, the result is
exactly the books matching every provided filter (logical AND); a falsy
filter value (`""` or `0`) is treated as absent. -/
theorem read_books_filters (a : Option String) (y : Option Int) (db : DB)
    (ha : ∀ s, a = some s → s ≠ "") (hy : ∀ n, y = some n → n ≠ 0) :
    read_books none none db = db.books ∧
    read_books a y db = db.books.filter (fun b =>
      (match a with | none => true | some s => b.author == s) &&
      (match y with | none => true | some n => b.publication_year == n)) := by
  refine ⟨by simp [read_books], ?_⟩
  cases a with
  | none =>
    cases y with
    | none => simp [read_books]
    | some n =>
      have hn : (n == 0) = false := by
        simpa using hy n rfl
      simp [read_books, hn]
  | some s =>
    have hs : s.isEmpty = false := by
      simpa [Bool.eq_false_iff, String.isEmpty_iff] using ha s rfl
    cases y with
    | none => simp [read_books, hs]
    | some n =>
      have hn : (n == 0) = false := by
        simpa using hy n rfl
      simp only [read_books, hs, hn, Bool.false_eq_true, if_false,
        List.filter_filter]
      exact List.filter_congr fun b _ => Bool.and_comm _ _

/-- Witness for the amended claim C5: on `dbDune`, filtering by the
non-empty author "Herbert" together with the non-zero year 1965 returns
exactly the matching subset, and the no-filter call returns the whole
table. -/
theorem read_books_filters_witness :
    read_books none none dbDune = dbDune.books ∧
    read_books (some "Herbert") (some 1965) dbDune =
      dbDune.books.filter (fun b =>
        (b.author == "Herbert") && (b.publication_year == 1965)) :=
  read_books_filters (some "Herbert") (some 1965) dbDune
    (by intro s h; injection h with h; subst h; decide)
    (by intro n h; injection h with h; subst h; decide)

/-- Claim C6: `delete_book` on a book that still has a review neither
cascade-deletes the review nor rejects the deletion: it succeeds, removes
the book, and leaves the review row in the store with its `book_id`
silently nullified. -/
theorem delete_book_orphans_reviews :
    delete_book 1 dbDuneReviewed =
      (.ok "Book deleted successfully",
       ⟨[], [⟨1, none, "Great", 5⟩], 2, 2⟩) :=
  rfl

/-- Claim C7: the create endpoints do not return the assigned id.  The ORM
row created for a book does carry the fresh id 1, but the response is
serialized through `response_model=BookCreate`, which has no id field, so
the client receives only the echoed input; likewise the review response
model `ReviewCreate` drops both `id` and `book_id`. -/
theorem create_response_omits_id :
    (create_book ⟨"Dune", "Herbert", 1965⟩ dbEmpty).1.id = 1 ∧
    create_book_endpoint ⟨"Dune", "Herbert", 1965⟩ dbEmpty =
      (⟨"Dune", "Herbert", 1965⟩,
       ⟨[⟨1, "Dune", "Herbert", 1965⟩], [], 2, 1⟩) ∧
    reviewCreateResponse ⟨1, some 1, "Great", 5⟩ = ⟨"Great", 5⟩ :=
  ⟨rfl, rfl, rfl⟩

/-- Claim C8: on every successful `create_review`, the notification task
is scheduled strictly after the review's commit in the handler's event
trace, the committed review is in the resulting store, and running the
notification task leaves the store — and hence the committed review —
untouched. -/
theorem notification_scheduled_after_commit (book_id : Nat)
    (rc : ReviewCreate) (db : DB) (r : Review) (evs : List Event)
    (db_post : DB)
    (h : create_review book_id rc db = (.ok (r, evs), db_post)) :
    ∃ i j : Nat, i < j ∧
      evs.get? i = some (.commitReview r) ∧
      evs.get? j = some (.scheduleNotification r.id) ∧
      r ∈ db_post.reviews ∧
      simulate_email_confirmation r db_post = db_post ∧
      r ∈ (simulate_email_confirmation r db_post).reviews := by
  cases hf : db.books.find? (fun b => b.id == book_id) with
  | none => simp [create_review, hf] at h
  | some b =>
    simp only [create_review, hf, Prod.mk.injEq, Except.ok.injEq] at h
    obtain ⟨⟨hr, hevs⟩, hdb⟩ := h
    subst hr hevs hdb
    refine ⟨0, 1, Nat.zero_lt_one, rfl, rfl, ?_, rfl, ?_⟩ <;>
      simp [simulate_email_confirmation]

/-- Witness for claim C8: submitting a review for book 1 on `dbDune`
succeeds, and the commit event precedes the scheduling event in the
trace. -/
theorem notification_scheduled_after_commit_witness :
    ∃ i j : Nat, i < j ∧
      ([Event.commitReview ⟨1, some 1, "Great", 5⟩,
        Event.scheduleNotification 1].get? i) =
        some (.commitReview ⟨1, some 1, "Great", 5⟩) ∧
      ([Event.commitReview ⟨1, some 1, "Great", 5⟩,
        Event.scheduleNotification 1].get? j) =
        some (.scheduleNotification (Review.id ⟨1, some 1, "Great", 5⟩)) ∧
      (⟨1, some 1, "Great", 5⟩ : Review) ∈ dbDuneReviewed.reviews ∧
      simulate_email_confirmation ⟨1, some 1, "Great", 5⟩ dbDuneReviewed =
        dbDuneReviewed ∧
      (⟨1, some 1, "Great", 5⟩ : Review) ∈
        (simulate_email_confirmation ⟨1, some 1, "Great", 5⟩
          dbDuneReviewed).reviews :=
  notification_scheduled_after_commit 1 ⟨"Great", 5⟩ dbDune
    ⟨1, some 1, "Great", 5⟩ _ dbDuneReviewed rfl

/-- Claim C9: a falsy filter value is treated as if the filter were
absent: `read_books` with `author=""` behaves like no author filter,
`publication_year=0` behaves like no year filter, and with both falsy
values every book is returned. -/
theorem falsy_filters_treated_as_absent (a : Option String) (y : Option Int)
    (db : DB) :
    read_books (some "") y db = read_books none y db ∧
    read_books a (some 0) db = read_books a none db ∧
    read_books (some "") (some 0) db = db.books :=
  ⟨rfl, by cases a <;> rfl, rfl⟩

/-- Claim C10: `update_review` replaces only `text` and `rating`: the
`(id, book_id)` column pairs of the whole table are unchanged, and the
returned review keeps the id and book binding of the stored row it
updates. -/
theorem update_review_preserves_identity (review_id : Nat)
    (rc : ReviewCreate) (db : DB) (r : Review) (db_post : DB)
    (h : update_review review_id rc db = (.ok r, db_post)) :
    db_post.reviews.map (fun x => (x.id, x.book_id)) =
      db.reviews.map (fun x => (x.id, x.book_id)) ∧
    db_post.books = db.books ∧
    r.text = rc.text ∧ r.rating = rc.rating ∧
    ∃ r0, db.reviews.find? (fun x => x.id == review_id) = some r0 ∧
      r.id = r0.id ∧ r.book_id = r0.book_id := by
  cases hf : db.reviews.find? (fun x => x.id == review_id) with
  | none => simp [update_review, hf] at h
  | some r0 =>
    simp only [update_review, hf, Prod.mk.injEq, Except.ok.injEq] at h
    obtain ⟨hr, hdb⟩ := h
    subst hr hdb
    exact ⟨updateFirst_map (fun x => x.id == review_id)
        (fun x => { x with text := rc.text, rating := rc.rating })
        (fun x => (x.id, x.book_id)) (fun x => rfl) db.reviews,
      rfl, rfl, rfl, r0, rfl, rfl, rfl⟩

/-- Witness for claim C10: updating review 1 in `dbDuneReviewed` changes
its text and rating but keeps its id 1 and its binding to book 1. -/
theorem update_review_preserves_identity_witness :
    (updateFirst (fun r => r.id == 1)
        (fun r => { r with text := "Meh", rating := 2 })
        dbDuneReviewed.reviews).map (fun x => (x.id, x.book_id)) =
      dbDuneReviewed.reviews.map (fun x => (x.id, x.book_id)) ∧
    dbDuneReviewed.books = dbDuneReviewed.books ∧
    Review.text ⟨1, some 1, "Meh", 2⟩ = "Meh" ∧
    Review.rating ⟨1, some 1, "Meh", 2⟩ = 2 ∧
    ∃ r0, dbDuneReviewed.reviews.find? (fun x => x.id == 1) = some r0 ∧
      Review.id ⟨1, some 1, "Meh", 2⟩ = r0.id ∧
      Review.book_id ⟨1, some 1, "Meh", 2⟩ = r0.book_id := by
  have := update_review_preserves_identity 1 ⟨"Meh", 2⟩ dbDuneReviewed
    ⟨1, some 1, "Meh", 2⟩
    { dbDuneReviewed with
        reviews := updateFirst (fun r => r.id == 1)
          (fun r => { r with text := "Meh", rating := 2 })
          dbDuneReviewed.reviews }
    rfl
  exact this

end BookReview
